import Mathlib

/-!
Verification of the process-supervision core in `sys/kern/kern_procctl.c`
(FreeBSD, 2014 vintage): reaper lifecycle, reaper signal fan-out,
protection-flag propagation, trace-visibility control, and the
single/group dispatcher.  Each C function the claims depend on is
shallowly embedded as a pure Lean function over explicit record state;
external collaborators (permission checks, signal delivery, copyin and
copyout, the process-lookup primitives) are parameters, following the
spec's "opaque predicate" treatment.
-/

namespace Procctl

/-! ### Error numbers (FreeBSD `errno.h`, not under src/; standard values) -/

def EPERM : Int := 1
def ESRCH : Int := 3
def EACCES : Int := 13
def EBUSY : Int := 16
def EINVAL : Int := 22
def ECAPMODE : Int := 94

/-! ### Constants from `sys/procctl.h` and `sys/signalvar.h` (headers not
under src/; the standard FreeBSD values). -/

def PROC_SPROTECT : Int := 1
def PROC_REAP_ACQUIRE : Int := 2
def PROC_REAP_RELEASE : Int := 3
def PROC_REAP_STATUS : Int := 4
def PROC_REAP_GETPIDS : Int := 5
def PROC_REAP_KILL : Int := 6
def PROC_TRACE_CTL : Int := 7
def PROC_TRACE_STATUS : Int := 8

def PPROT_SET : Nat := 1
def PPROT_CLEAR : Nat := 2
def PPROT_DESCEND : Nat := 0x10
def PPROT_INHERIT : Nat := 0x20

/-- `PPROT_OP(x) = (x) & 0xf` -/
def PPROT_OP (x : Nat) : Nat := x &&& 0xf

/-- `PPROT_FLAGS(x) = (x) & ~0xf`; flags words are 32-bit, so the C
complement `~0xf` is `2^32 - 1 - 0xf` on the nonnegative int range. -/
def PPROT_FLAGS (x : Nat) : Nat := x &&& (2 ^ 32 - 1 - 0xf)

def REAPER_KILL_CHILDREN : Nat := 1
def REAPER_KILL_SUBTREE : Nat := 2

def REAPER_PIDINFO_VALID : Nat := 1
def REAPER_PIDINFO_CHILD : Nat := 2

def PROC_TRACE_CTL_ENABLE : Int := 1
def PROC_TRACE_CTL_DISABLE : Int := 2
def PROC_TRACE_CTL_DISABLE_EXEC : Int := 3

/-- `_SIG_MAXSIG` -/
def SIG_MAXSIG : Int := 128

/-! ### Reaper signal fan-out: `reap_kill`

The loop iterates either the reaper's direct-children list or its flat
`reap_list`.  Per candidate `p2` the externally supplied permission
check `p_cansignal(td, p2, sig)` either returns 0 (and the signal is
delivered by `pksignal`) or a nonzero errno.  We record each candidate
as a record carrying its pid, its `p_reapsubtree` tag, and the errno
that `p_cansignal` returns for it (0 meaning permitted). -/

structure KProc where
  p_pid : Int
  p_reapsubtree : Nat
  cansignal : Int
  deriving DecidableEq, Repr

/-- Request/response record `procctl_reaper_kill`: `rk_sig`, `rk_flags`,
`rk_subtree` are inputs; `rk_killed` and `rk_fpid` are outputs (left at
their incoming values when `reap_kill` returns before resetting them). -/
structure RKill where
  rk_sig : Int
  rk_flags : Nat
  rk_subtree : Nat
  rk_killed : Nat
  rk_fpid : Int
  deriving DecidableEq, Repr

/-- Result of `reap_kill`: the returned errno, the output `rk_killed`
and `rk_fpid` fields, and the list of pids actually handed to
`pksignal`, in delivery order (this last records the external signal
side effects, letting "every permitted candidate is signaled" be
stated). -/
structure KillResult where
  error : Int
  rk_killed : Nat
  rk_fpid : Int
  signaled : List Int
  deriving DecidableEq, Repr

/-- The candidate loop of `reap_kill` (lines 258-278).  State threaded
exactly as in the C body: `error` starts at `ESRCH`, `rk_killed` at 0,
`rk_fpid` at -1; the loop never exits early. -/
def reap_kill_loop (flags subtree : Nat) :
    List KProc → Int → Nat → Int → List Int → KillResult
  | [], error, killed, fpid, sig =>
    { error := error, rk_killed := killed, rk_fpid := fpid, signaled := sig }
  | p2 :: rest, error, killed, fpid, sig =>
    if flags &&& REAPER_KILL_SUBTREE ≠ 0 ∧ p2.p_reapsubtree ≠ subtree then
      reap_kill_loop flags subtree rest error killed fpid sig
    else if p2.cansignal = 0 then
      reap_kill_loop flags subtree rest 0 (killed + 1) fpid (sig ++ [p2.p_pid])
    else if error = ESRCH then
      reap_kill_loop flags subtree rest p2.cansignal killed p2.p_pid sig
    else
      reap_kill_loop flags subtree rest error killed fpid sig

/-- `reap_kill` (lines 234-281).  `capmode` is `IN_CAPABILITY_MODE(td)`;
`children` is the reaper's `p_children` list and `reaplist` its
`p_reaplist`, as observed under the tree lock during the walk. -/
def reap_kill (capmode : Bool) (children reaplist : List KProc)
    (rk : RKill) : KillResult :=
  if capmode then
    { error := ECAPMODE, rk_killed := rk.rk_killed, rk_fpid := rk.rk_fpid,
      signaled := [] }
  else if rk.rk_sig ≤ 0 ∨ rk.rk_sig > SIG_MAXSIG then
    { error := EINVAL, rk_killed := rk.rk_killed, rk_fpid := rk.rk_fpid,
      signaled := [] }
  else if rk.rk_flags &&& (2 ^ 32 - 1 - REAPER_KILL_CHILDREN) ≠ 0 then
    { error := EINVAL, rk_killed := rk.rk_killed, rk_fpid := rk.rk_fpid,
      signaled := [] }
  else
    reap_kill_loop rk.rk_flags rk.rk_subtree
      (if rk.rk_flags &&& REAPER_KILL_CHILDREN ≠ 0 then children else reaplist)
      ESRCH 0 (-1) []

/-! ### Attribute propagation: `protect_setchild` / `protect_setchildren` /
`protect_set`

Per-process state relevant to protection.  `p_system` is the `P_SYSTEM`
bit of `p_flag`; `cansched` records the externally supplied
`p_cansched(td, p) == 0` outcome for the (fixed) calling thread;
`p_protected` is `P_PROTECTED` in `p_flag` and `p2_inherit_protected`
is `P2_INHERIT_PROTECTED` in `p_flag2`. -/

structure PProc where
  p_system : Bool
  cansched : Bool
  p_protected : Bool
  p2_inherit_protected : Bool
  deriving DecidableEq, Repr

/-- The process tree rooted at a record: the record's fields together
with the `p_children` list in its link order (`LIST_FIRST` is the head,
`LIST_NEXT(·, p_sibling)` the tail order, `p_pptr` the parent). -/
inductive PTree where
  | node (p : PProc) (children : List PTree)
  deriving Repr

/-- `protect_setchild` (lines 46-62): returns the mutated record and
the C function's int return (0 = skipped, 1 = mutated). -/
def protect_setchild (flags : Nat) (p : PProc) : PProc × Nat :=
  if p.p_system ∨ ¬p.cansched then (p, 0)
  else if flags &&& PPROT_SET ≠ 0 then
    ({ p with
        p_protected := true
        p2_inherit_protected :=
          if flags &&& PPROT_INHERIT ≠ 0 then true else p.p2_inherit_protected },
     1)
  else
    ({ p with p_protected := false, p2_inherit_protected := false }, 1)

mutual

/-- `protect_setchildren` (lines 64-96) restricted to one subtree.  The
C loop is an iterative pre-order walk over the intrusive
child/sibling/parent links, visiting each node of the subtree rooted at
`top` exactly once (descend to `LIST_FIRST(&p->p_children)` after
visiting, else advance to `LIST_NEXT(p, p_sibling)`, ascending via
`p_pptr` and stopping at `top`); `ret` accumulates `|=` of the
per-node `protect_setchild` returns.  The walk's effect is this
node-then-children-in-order recursion. -/
def protect_setchildren (flags : Nat) : PTree → PTree × Nat
  | .node p cs =>
    let r := protect_setchild flags p
    let rs := protect_setforest flags cs
    (.node r.1 rs.1, r.2 ||| rs.2)

/-- The walk over a sibling list, in link order. -/
def protect_setforest (flags : Nat) : List PTree → List PTree × Nat
  | [] => ([], 0)
  | t :: ts =>
    let a := protect_setchildren flags t
    let b := protect_setforest flags ts
    (a.1 :: b.1, a.2 ||| b.2)

end

/-- The non-`DESCEND` arm of `protect_set` (line 121): apply
`protect_setchild` to exactly the target record, leaving the subtree
below untouched. -/
def protect_settarget (flags : Nat) : PTree → PTree × Nat
  | .node p cs =>
    let r0 := protect_setchild flags p
    (.node r0.1 cs, r0.2)

/-- `protect_set` (lines 98-125).  `priv` is the externally supplied
`priv_check(td, PRIV_VM_MADV_PROTECT)` outcome (0 = privileged).
Returns the errno and the (possibly mutated) subtree rooted at the
target. -/
def protect_set (priv : Int) (flags : Nat) (t : PTree) : Int × PTree :=
  if ¬(PPROT_OP flags = PPROT_SET ∨ PPROT_OP flags = PPROT_CLEAR) then
    (EINVAL, t)
  else if PPROT_FLAGS flags &&& (2 ^ 32 - 1 - (PPROT_DESCEND ||| PPROT_INHERIT)) ≠ 0 then
    (EINVAL, t)
  else if priv ≠ 0 then
    (priv, t)
  else
    let r :=
      if flags &&& PPROT_DESCEND ≠ 0 then protect_setchildren flags t
      else protect_settarget flags t
    if r.2 = 0 then (EPERM, r.1) else (0, r.1)

mutual

/-- All process records in a tree (the subtree's member set). -/
def PTree.procs : PTree → List PProc
  | .node p cs => p :: ptreesProcs cs

/-- All process records in a sibling list. -/
def ptreesProcs : List PTree → List PProc
  | [] => []
  | t :: ts => PTree.procs t ++ ptreesProcs ts

end

/-! ### Reaper lifecycle: `reap_acquire` / `reap_release` -/

/-- The reaper-relevant state of the target process: whether it is
`initproc` (the permanent root reaper) and its `P_TREE_REAPER` bit. -/
structure RProc where
  isInitproc : Bool
  treeReaper : Bool
  deriving DecidableEq, Repr

/-- `reap_acquire` (lines 127-142).  `isCurproc` is `p == curproc`.
Returns the errno and the target's state after the call. -/
def reap_acquire (isCurproc : Bool) (p : RProc) : Int × RProc :=
  if ¬isCurproc then (EPERM, p)
  else if p.treeReaper then (EBUSY, p)
  else (0, { p with treeReaper := true })

/-- Modelled from the spec: `reaper_abandon_children` lives outside this
source unit (only its call site is in src/).  Per §4.2 it clears
`is_reaper` on `p` and reassigns every record in `p`'s reap list to
`p`'s own reaper; only the effect on `p`'s own flag is modelled here. -/
def reaper_abandon_children (p : RProc) : RProc :=
  { p with treeReaper := false }

/-- `reap_release` (lines 144-157). -/
def reap_release (isCurproc : Bool) (p : RProc) : Int × RProc :=
  if ¬isCurproc then (EPERM, p)
  else if p.isInitproc then (EINVAL, p)
  else if ¬p.treeReaper then (EINVAL, p)
  else (0, reaper_abandon_children p)

/-! ### Reaper introspection: `reap_getpids` -/

/-- A member of the resolved reaper's `p_reaplist` as observed during
the walk: its pid, its `p_reapsubtree` tag, and whether
`proc_realparent(p2) == reap`. -/
structure GProc where
  p_pid : Int
  p_reapsubtree : Nat
  realparentIsReap : Bool
  deriving DecidableEq, Repr

/-- Entry of the returned `procctl_reaper_pidinfo` array. -/
structure PidInfo where
  pi_pid : Int
  pi_subtree : Nat
  pi_flags : Nat
  deriving DecidableEq, Repr

/-- The entry built for one reap-list member (lines 217-224). -/
def mkPidInfo (p2 : GProc) : PidInfo :=
  { pi_pid := p2.p_pid
    pi_subtree := p2.p_reapsubtree
    pi_flags :=
      if p2.realparentIsReap then REAPER_PIDINFO_VALID ||| REAPER_PIDINFO_CHILD
      else REAPER_PIDINFO_VALID }

/-- The fill loop of `reap_getpids` (lines 214-225): walks the
reap list, stopping when `i == n`. -/
def getpids_fill : Nat → List GProc → List PidInfo
  | _, [] => []
  | 0, _ :: _ => []
  | n + 1, p2 :: rest => mkPidInfo p2 :: getpids_fill n rest

/-- `reap_getpids` (lines 194-232), returning the sequence of entries
handed to `copyout`.  The proctree lock is dropped between the counting
pass and the fill pass, so the two passes may observe different
reap-list contents: `phase1` is the list during counting, `phase2` the
list during filling.  `rp_count` is the caller's requested capacity. -/
def reap_getpids (phase1 phase2 : List GProc) (rp_count : Nat) : List PidInfo :=
  let n0 := phase1.length
  let n := if rp_count < n0 then rp_count else n0
  getpids_fill n phase2

/-! ### Trace-visibility control: `trace_ctl` / `trace_status` -/

/-- Trace-relevant per-process state: `P_TRACED` in `p_flag`, the
ktrace word `p_traceflag`, the `P2_NOTRACE` / `P2_NOTRACE_EXEC` bits of
`p_flag2`, and the pids used by `trace_status`. -/
structure TProc where
  p_traced : Bool
  p_traceflag : Nat
  p2_notrace : Bool
  p2_notrace_exec : Bool
  p_pid : Int
  pptr_pid : Int
  deriving DecidableEq, Repr

/-- `trace_ctl` (lines 283-321).  `tdIsP` is `td->td_proc == p`. -/
def trace_ctl (tdIsP : Bool) (p : TProc) (state : Int) : Int × TProc :=
  if p.p_traced ∨ p.p_traceflag ≠ 0 then (EBUSY, p)
  else if state = PROC_TRACE_CTL_ENABLE then
    if ¬tdIsP then (EPERM, p)
    else (0, { p with p2_notrace := false, p2_notrace_exec := false })
  else if state = PROC_TRACE_CTL_DISABLE_EXEC then
    (0, { p with p2_notrace_exec := true, p2_notrace := true })
  else if state = PROC_TRACE_CTL_DISABLE then
    if p.p2_notrace_exec then
      if ¬tdIsP then (EPERM, p)
      else (0, { p with p2_notrace_exec := false })
    else (0, { p with p2_notrace := true })
  else (EINVAL, p)

/-- `trace_status` (lines 323-337): the `*data` value written back. -/
def trace_status (p : TProc) : Int :=
  if p.p2_notrace then -1
  else if p.p_traced then p.pptr_pid
  else 0

/-! ### Dispatcher, process-group branch of `kern_procctl` -/

/-- One member of the process group, as the loop observes it under the
member's process lock: `p_state == PRS_NEW`, the `p_cansee(td, p)`
outcome, and the errno that `kern_procctl_single` returns for it. -/
structure GMember where
  prsNew : Bool
  cansee : Int
  opError : Int
  deriving DecidableEq, Repr

/-- A group member participates iff it is fully created and visible to
the caller (line 509). -/
def memberVisible (m : GMember) : Bool :=
  !m.prsNew && m.cansee == 0

/-- The `LIST_FOREACH` over `pg_members` (lines 507-519), threading
`ok` and `first_error` exactly as in the C body. -/
def pgid_loop : List GMember → Nat → Int → Nat × Int
  | [], ok, first_error => (ok, first_error)
  | m :: rest, ok, first_error =>
    if m.prsNew ∨ m.cansee ≠ 0 then pgid_loop rest ok first_error
    else if m.opError = 0 then pgid_loop rest 1 first_error
    else if first_error = 0 then pgid_loop rest ok m.opError
    else pgid_loop rest ok first_error

/-- The `P_PGID` arm of `kern_procctl` (lines 492-530), after
`pgfind` succeeded: the aggregated errno. -/
def kern_procctl_pgid (members : List GMember) : Int :=
  let r := pgid_loop members 0 0
  if r.1 ≠ 0 then 0
  else if r.2 ≠ 0 then r.2
  else ESRCH

/-! ### External entry point: `sys_procctl` -/

/-- Outcome of `sys_procctl` (lines 348-411) for the purposes of
claim C10: the returned errno together with whether `kern_procctl` was
ever invoked.  External collaborators are parameters: `copyinError` is
the errno of the `copyin` performed for the commands that need one
(0 = success), `kernError` stands for the `kern_procctl` call (its
result, used only when the call is reached), and `copyoutError`
likewise for the writeback `copyout`s.  `dataIsNull` is
`uap->data == NULL`. -/
def sys_procctl (com : Int) (dataIsNull : Bool)
    (copyinError kernError copyoutError : Int) : Int × Bool :=
  if com = PROC_SPROTECT ∨ com = PROC_TRACE_CTL then
    if copyinError ≠ 0 then (copyinError, false)
    else (kernError, true)
  else if com = PROC_REAP_ACQUIRE ∨ com = PROC_REAP_RELEASE then
    if ¬dataIsNull then (EINVAL, false)
    else (kernError, true)
  else if com = PROC_REAP_STATUS then
    let error := kernError
    (if error = 0 then copyoutError else error, true)
  else if com = PROC_REAP_GETPIDS then
    if copyinError ≠ 0 then (copyinError, false)
    else (kernError, true)
  else if com = PROC_REAP_KILL then
    if copyinError ≠ 0 then (copyinError, false)
    else
      let error := kernError
      (if error = 0 then copyoutError else error, true)
  else if com = PROC_TRACE_STATUS then
    let error := kernError
    (if error = 0 then copyoutError else error, true)
  else (EINVAL, false)

/-! ### Derived observations used by the theorems -/

/-- The candidate set `reap_kill`'s loop walks: the reaper's direct
children if `REAPER_KILL_CHILDREN` is set, else the full reap list
(lines 258-262). -/
def killCandidates (flags : Nat) (children reaplist : List KProc) : List KProc :=
  if flags &&& REAPER_KILL_CHILDREN ≠ 0 then children else reaplist

/-- The errno `reap_kill` ends with when every candidate fails its
permission check: the first failure code that differs from the `ESRCH`
sentinel, or `ESRCH` when there is none (the sentinel makes an `ESRCH`
permission failure indistinguishable from "nothing recorded yet"). -/
def firstNonSentinelError : List KProc → Int
  | [] => ESRCH
  | p2 :: rest =>
    if p2.cansignal ≠ ESRCH then p2.cansignal else firstNonSentinelError rest

/-- The value `first_error` holds after the group loop when it started
at 0: the error of the first visible member whose operation failed. -/
def firstVisibleError : List GMember → Int
  | [] => 0
  | m :: rest =>
    if memberVisible m = true ∧ m.opError ≠ 0 then m.opError
    else firstVisibleError rest

/-- The internal consistency invariant of trace control:
`P2_NOTRACE_EXEC` implies `P2_NOTRACE` (the `KASSERT` at lines
308-309). -/
def notraceInv (p : TProc) : Prop :=
  p.p2_notrace_exec = true → p.p2_notrace = true

instance (p : TProc) : Decidable (notraceInv p) := by
  unfold notraceInv
  infer_instance

/-! ## Claim C1 -/

/-- C1: refuted by evaluation — the claim states that a `reap_kill`
whose flags are a subset of `{REAPER_KILL_CHILDREN, REAPER_KILL_SUBTREE}`
and whose signal is in range never fails `EINVAL`, with
`REAPER_KILL_SUBTREE` restricting candidates by `p_reapsubtree` tag.
The validation `(rk_flags & ~REAPER_KILL_CHILDREN) != 0` rejects the
`REAPER_KILL_SUBTREE` bit itself, so a request carrying exactly that
flag and the valid signal 1 fails `EINVAL` and signals nothing, even
though the loop body contains the (unreachable) subtree-filter logic
and a matching permitted candidate exists. -/
theorem reap_kill_subtree_flag_einval :
    reap_kill false [] [⟨10, 7, 0⟩] ⟨1, REAPER_KILL_SUBTREE, 7, 0, -1⟩ =
      ⟨EINVAL, 0, -1, []⟩ ∧
    (1 : Int) ≤ SIG_MAXSIG ∧ REAPER_KILL_SUBTREE &&&
      (2 ^ 32 - 1 - (REAPER_KILL_CHILDREN ||| REAPER_KILL_SUBTREE)) = 0 := by
  refine ⟨by decide, by decide, by decide⟩

/-! ## Claim C5 -/

/-- C5 counterexample: the claim says `reap_release` on the permanent
root reaper always fails `EINVAL` and `reap_acquire` on a process with
`is_reaper` already set always fails `EBUSY` (AlreadyActive); but when
the target is not the calling process, both fail `EPERM` instead,
because the `p != curproc` check precedes the `initproc` /
`P_TREE_REAPER` checks. -/
theorem reap_lifecycle_nonself_eperm :
    (reap_release false ⟨true, true⟩).1 = EPERM ∧
    (reap_release false ⟨true, true⟩).1 ≠ EINVAL ∧
    (reap_acquire false ⟨false, true⟩).1 = EPERM ∧
    (reap_acquire false ⟨false, true⟩).1 ≠ EBUSY := by
  refine ⟨by decide, by decide, by decide, by decide⟩

/-- C5 (amended): when the caller acts on itself, `reap_release` on the
permanent root reaper fails `EINVAL` and `reap_acquire` on an
already-active reaper fails `EBUSY` (the spec's AlreadyActive); when
the target is another process both fail `EPERM`; in every one of these
failure cases the target's reaper state is unchanged. -/
theorem reap_lifecycle_failures (p : RProc) :
    (p.isInitproc = true → reap_release true p = (EINVAL, p)) ∧
    (p.treeReaper = true → reap_acquire true p = (EBUSY, p)) ∧
    reap_release false p = (EPERM, p) ∧
    reap_acquire false p = (EPERM, p) := by
  obtain ⟨i, r⟩ := p
  refine ⟨fun h => ?_, fun h => ?_, ?_, ?_⟩ <;>
    simp_all [reap_release, reap_acquire]

/-- C5 witness: the amended theorem applied to the root reaper record
and to an already-active non-root reaper record. -/
theorem reap_lifecycle_failures_witness :
    reap_release true ⟨true, true⟩ = (EINVAL, ⟨true, true⟩) ∧
    reap_acquire true ⟨false, true⟩ = (EBUSY, ⟨false, true⟩) :=
  ⟨(reap_lifecycle_failures ⟨true, true⟩).1 rfl,
   (reap_lifecycle_failures ⟨false, true⟩).2.1 rfl⟩

/-! ## Claim C8 -/

/-- C8: `trace_ctl(ENABLE)` on a target that is already traced
(`P_TRACED` set) or has the ktrace word nonzero fails `EBUSY` and
leaves the record unchanged; and whenever `trace_ctl(DISABLE_EXEC)`
succeeds, a subsequent `trace_status` reports the Untraceable
sentinel -1. -/
theorem trace_ctl_busy_and_disable_exec :
    (∀ (tdIsP : Bool) (p : TProc), p.p_traced = true ∨ p.p_traceflag ≠ 0 →
      trace_ctl tdIsP p PROC_TRACE_CTL_ENABLE = (EBUSY, p)) ∧
    (∀ (tdIsP : Bool) (p q : TProc),
      trace_ctl tdIsP p PROC_TRACE_CTL_DISABLE_EXEC = (0, q) →
      trace_status q = -1) := by
  constructor
  · intro tdIsP p h
    rcases h with h | h <;> simp [trace_ctl, h]
  · intro tdIsP p q h
    by_cases hb : p.p_traced ∨ p.p_traceflag ≠ 0
    · simp [trace_ctl, hb, EBUSY] at h
    · simp [trace_ctl, hb, PROC_TRACE_CTL_DISABLE_EXEC, PROC_TRACE_CTL_ENABLE] at h
      rw [← h]
      simp [trace_status]

/-- C8 witness: the theorem applied to a concrete traced record and a
concrete untraced record. -/
theorem trace_ctl_busy_and_disable_exec_witness :
    trace_ctl true ⟨true, 0, false, false, 5, 4⟩ PROC_TRACE_CTL_ENABLE =
      (EBUSY, ⟨true, 0, false, false, 5, 4⟩) ∧
    trace_status ⟨false, 0, true, true, 5, 4⟩ = -1 :=
  ⟨trace_ctl_busy_and_disable_exec.1 true ⟨true, 0, false, false, 5, 4⟩
      (Or.inl rfl),
   trace_ctl_busy_and_disable_exec.2 false ⟨false, 0, false, false, 5, 4⟩
      ⟨false, 0, true, true, 5, 4⟩ (by decide)⟩

/-! ## Claim C9 -/

/-- C9: every `trace_ctl` transition preserves the invariant
"no-trace-on-exec implies no-trace"; and on a record with
`P2_NOTRACE_EXEC` set (and not busy), a successful
`trace_ctl(DISABLE)` by the process itself clears exactly the
`P2_NOTRACE_EXEC` flag — the result is the input record with only that
field changed, so `P2_NOTRACE` remains set and `trace_status` still
reports -1. -/
theorem trace_ctl_disable_preserves_notrace :
    (∀ (tdIsP : Bool) (p : TProc) (st : Int), notraceInv p →
      notraceInv (trace_ctl tdIsP p st).2) ∧
    (∀ p : TProc, notraceInv p → p.p2_notrace_exec = true →
      p.p_traced = false → p.p_traceflag = 0 →
      trace_ctl true p PROC_TRACE_CTL_DISABLE =
        (0, { p with p2_notrace_exec := false }) ∧
      ({ p with p2_notrace_exec := false } : TProc).p2_notrace = true ∧
      trace_status { p with p2_notrace_exec := false } = -1) := by
  constructor
  · intro tdIsP p st hinv
    unfold trace_ctl
    repeat' split
    all_goals simp_all [notraceInv]
  · intro p hinv hexec htr htf
    have hnt : p.p2_notrace = true := hinv hexec
    refine ⟨?_, by simp [hnt], by simp [trace_status, hnt]⟩
    simp [trace_ctl, htr, htf, hexec, PROC_TRACE_CTL_DISABLE,
      PROC_TRACE_CTL_ENABLE, PROC_TRACE_CTL_DISABLE_EXEC]

/-- C9 witness: the theorem applied to a concrete record with both
no-trace flags set. -/
theorem trace_ctl_disable_preserves_notrace_witness :
    notraceInv (trace_ctl true ⟨false, 0, true, true, 5, 4⟩
      PROC_TRACE_CTL_DISABLE).2 ∧
    trace_ctl true ⟨false, 0, true, true, 5, 4⟩ PROC_TRACE_CTL_DISABLE =
      (0, ⟨false, 0, true, false, 5, 4⟩) :=
  ⟨trace_ctl_disable_preserves_notrace.1 true ⟨false, 0, true, true, 5, 4⟩
      PROC_TRACE_CTL_DISABLE (by decide),
   (trace_ctl_disable_preserves_notrace.2 ⟨false, 0, true, true, 5, 4⟩
      (by decide) rfl rfl rfl).1⟩

/-! ## Claim C10 -/

/-- C10: for command `PROC_REAP_ACQUIRE` or `PROC_REAP_RELEASE` with a
non-null request payload pointer, `sys_procctl` fails `EINVAL` without
ever invoking `kern_procctl` (so no target resolution or core
operation is attempted), for every possible outcome of the external
collaborators. -/
theorem sys_procctl_reaper_data_einval
    (com copyinError kernError copyoutError : Int)
    (h : com = PROC_REAP_ACQUIRE ∨ com = PROC_REAP_RELEASE) :
    sys_procctl com false copyinError kernError copyoutError =
      (EINVAL, false) := by
  rcases h with h | h <;> subst h <;> rfl

/-- C10 witness: the theorem applied to both reaper commands with
concrete collaborator outcomes. -/
theorem sys_procctl_reaper_data_einval_witness :
    sys_procctl PROC_REAP_ACQUIRE false 0 0 0 = (EINVAL, false) ∧
    sys_procctl PROC_REAP_RELEASE false 0 7 3 = (EINVAL, false) :=
  ⟨sys_procctl_reaper_data_einval PROC_REAP_ACQUIRE 0 0 0 (Or.inl rfl),
   sys_procctl_reaper_data_einval PROC_REAP_RELEASE 0 7 3 (Or.inr rfl)⟩

/-! ## Claim C7 -/

theorem getpids_fill_length_le : ∀ (n : Nat) (L : List GProc),
    (getpids_fill n L).length ≤ n
  | _, [] => by cases ‹Nat› <;> simp [getpids_fill]
  | 0, _ :: _ => by simp [getpids_fill]
  | n + 1, p2 :: rest => by
    simpa [getpids_fill] using getpids_fill_length_le n rest

theorem getpids_fill_mem : ∀ (n : Nat) (L : List GProc),
    ∀ e ∈ getpids_fill n L, ∃ p2 ∈ L, e = mkPidInfo p2
  | _, [] => by cases ‹Nat› <;> simp [getpids_fill]
  | 0, _ :: _ => by simp [getpids_fill]
  | n + 1, p2 :: rest => by
    intro e he
    simp only [getpids_fill, List.mem_cons] at he
    rcases he with he | he
    · exact ⟨p2, List.mem_cons_self p2 rest, he⟩
    · obtain ⟨q, hq, hqe⟩ := getpids_fill_mem n rest e he
      exact ⟨q, List.mem_cons_of_mem p2 hq, hqe⟩

/-- C7: `reap_getpids` never returns more entries than the requested
capacity `rp_count`, no matter how the reap list changed between the
counting pass (`phase1`) and the fill pass (`phase2`); and every
returned entry is the record built from a member of the reap list as
it stood during the fill pass — no entry is fabricated. -/
theorem reap_getpids_bounded_and_genuine
    (phase1 phase2 : List GProc) (cap : Nat) :
    (reap_getpids phase1 phase2 cap).length ≤ cap ∧
    ∀ e ∈ reap_getpids phase1 phase2 cap, ∃ p2 ∈ phase2, e = mkPidInfo p2 := by
  constructor
  · show (getpids_fill (if cap < phase1.length then cap else phase1.length)
      phase2).length ≤ cap
    split
    · exact getpids_fill_length_le cap phase2
    · exact le_trans (getpids_fill_length_le phase1.length phase2)
        (Nat.le_of_not_lt (by assumption))
  · exact getpids_fill_mem _ phase2

/-- C7 witness: a two-member reap list observed in both phases with
capacity 1 yields one entry, built from the first member. -/
theorem reap_getpids_bounded_and_genuine_witness :
    (reap_getpids [⟨1, 0, true⟩, ⟨2, 0, false⟩]
        [⟨1, 0, true⟩, ⟨2, 0, false⟩] 1).length ≤ 1 ∧
    ∃ p2 ∈ ([⟨1, 0, true⟩, ⟨2, 0, false⟩] : List GProc),
      (⟨1, 0, 3⟩ : PidInfo) = mkPidInfo p2 :=
  ⟨(reap_getpids_bounded_and_genuine _ _ 1).1,
   (reap_getpids_bounded_and_genuine [⟨1, 0, true⟩, ⟨2, 0, false⟩]
      [⟨1, 0, true⟩, ⟨2, 0, false⟩] 1).2 ⟨1, 0, 3⟩ (by decide)⟩

/-! ## Claim C4 -/

theorem pgid_loop_eq : ∀ (ms : List GMember) (ok : Nat) (fe : Int),
    pgid_loop ms ok fe =
      ((if ∃ m ∈ ms, memberVisible m = true ∧ m.opError = 0 then 1 else ok),
       (if fe ≠ 0 then fe else firstVisibleError ms))
  | [], ok, fe => by
    by_cases hfe : fe = 0 <;> simp [pgid_loop, firstVisibleError, hfe]
  | m :: rest, ok, fe => by
    by_cases hskip : m.prsNew ∨ m.cansee ≠ 0
    · have hvis : memberVisible m = false := by
        simp only [memberVisible, Bool.and_eq_false_iff, Bool.not_eq_false',
          beq_eq_false_iff_ne]
        rcases hskip with h | h
        · exact Or.inl h
        · exact Or.inr h
      rw [pgid_loop, if_pos hskip, pgid_loop_eq rest ok fe]
      simp [hvis, firstVisibleError]
    · have hvis : memberVisible m = true := by
        simp only [memberVisible, Bool.and_eq_true, Bool.not_eq_true',
          beq_iff_eq]
        push_neg at hskip
        exact ⟨by simpa using hskip.1, hskip.2⟩
      rw [pgid_loop, if_neg hskip]
      by_cases hop : m.opError = 0
      · rw [if_pos hop, pgid_loop_eq rest 1 fe]
        simp [hvis, hop, firstVisibleError]
      · rw [if_neg hop]
        by_cases hfe : fe = 0
        · rw [if_pos hfe, pgid_loop_eq rest ok m.opError]
          simp [hvis, hop, hfe, firstVisibleError]
        · rw [if_neg hfe, pgid_loop_eq rest ok fe]
          simp [hvis, hop, hfe, firstVisibleError]

theorem kern_procctl_pgid_eq (ms : List GMember) :
    kern_procctl_pgid ms =
      if ∃ m ∈ ms, memberVisible m = true ∧ m.opError = 0 then 0
      else if firstVisibleError ms ≠ 0 then firstVisibleError ms
      else ESRCH := by
  unfold kern_procctl_pgid
  rw [pgid_loop_eq ms 0 0]
  by_cases hex : ∃ m ∈ ms, memberVisible m = true ∧ m.opError = 0 <;>
    simp [hex]

theorem firstVisibleError_filter : ∀ ms : List GMember,
    firstVisibleError (ms.filter memberVisible) = firstVisibleError ms
  | [] => by simp [firstVisibleError]
  | m :: rest => by
    by_cases hvis : memberVisible m = true
    · rw [List.filter_cons_of_pos hvis]
      by_cases hop : m.opError ≠ 0
      · simp [firstVisibleError, hvis, hop]
      · simp [firstVisibleError, hvis, hop, firstVisibleError_filter rest]
    · rw [List.filter_cons_of_neg (by simpa using hvis)]
      rw [firstVisibleError_filter rest]
      simp [firstVisibleError, hvis]

theorem firstVisibleError_zero : ∀ ms : List GMember,
    (∀ m ∈ ms, memberVisible m = false) → firstVisibleError ms = 0
  | [] => by simp [firstVisibleError]
  | m :: rest => by
    intro h
    have := h m (List.mem_cons_self m rest)
    simp [firstVisibleError, this]
    exact firstVisibleError_zero rest fun q hq => h q (List.mem_cons_of_mem m hq)

theorem firstVisibleError_head : ∀ (ms : List GMember) (m0 : GMember)
    (t : List GMember), ms.filter memberVisible = m0 :: t →
    m0.opError ≠ 0 → firstVisibleError ms = m0.opError
  | [], m0, t => by simp
  | m :: rest, m0, t => by
    intro hf hop
    by_cases hvis : memberVisible m = true
    · rw [List.filter_cons_of_pos hvis] at hf
      have h1 : m = m0 := (List.cons_eq_cons.mp hf).1
      subst h1
      simp [firstVisibleError, hvis, hop]
    · rw [List.filter_cons_of_neg (by simpa using hvis)] at hf
      rw [show firstVisibleError (m :: rest) =
          if memberVisible m = true ∧ m.opError ≠ 0 then m.opError
          else firstVisibleError rest from rfl]
      simp only [hvis, false_and, if_neg, Bool.false_eq_true]
      rw [if_neg (by simp [hvis])]
      exact firstVisibleError_head rest m0 t hf hop

/-- C4: in the process-group branch of `kern_procctl`, members that are
still `PRS_NEW` or fail the caller-visibility check are skipped
silently (the aggregate depends only on the visible sublist); the
aggregate is success as soon as one visible member's operation
succeeded; it is `ESRCH` (NotFound) when no member was visible at all;
and when every visible member's operation fails, it is the error of
the first visible member. -/
theorem kern_procctl_pgid_aggregate (ms : List GMember) :
    kern_procctl_pgid ms = kern_procctl_pgid (ms.filter memberVisible) ∧
    ((∃ m ∈ ms, memberVisible m = true ∧ m.opError = 0) →
      kern_procctl_pgid ms = 0) ∧
    ((∀ m ∈ ms, memberVisible m = false) → kern_procctl_pgid ms = ESRCH) ∧
    (∀ m0 t, ms.filter memberVisible = m0 :: t →
      (∀ m ∈ ms, memberVisible m = true → m.opError ≠ 0) →
      kern_procctl_pgid ms = m0.opError) := by
  refine ⟨?_, ?_, ?_, ?_⟩
  · rw [kern_procctl_pgid_eq, kern_procctl_pgid_eq,
      firstVisibleError_filter]
    have hex : (∃ m ∈ ms.filter memberVisible,
        memberVisible m = true ∧ m.opError = 0) ↔
        (∃ m ∈ ms, memberVisible m = true ∧ m.opError = 0) := by
      constructor
      · rintro ⟨m, hm, hv, ho⟩
        exact ⟨m, (List.mem_filter.mp hm).1, hv, ho⟩
      · rintro ⟨m, hm, hv, ho⟩
        exact ⟨m, List.mem_filter.mpr ⟨hm, hv⟩, hv, ho⟩
    by_cases h : ∃ m ∈ ms, memberVisible m = true ∧ m.opError = 0
    · rw [if_pos h, if_pos (hex.mpr h)]
    · rw [if_neg h, if_neg (fun hc => h (hex.mp hc))]
  · intro h
    rw [kern_procctl_pgid_eq, if_pos h]
  · intro h
    rw [kern_procctl_pgid_eq,
      if_neg (by rintro ⟨m, hm, hv, _⟩; rw [h m hm] at hv; exact absurd hv (by simp)),
      if_neg (by rw [firstVisibleError_zero ms h]; simp)]
  · intro m0 t hf hall
    have hm0 : m0 ∈ ms.filter memberVisible := by rw [hf]; exact List.mem_cons_self m0 t
    have hm0v : memberVisible m0 = true := (List.mem_filter.mp hm0).2
    have hm0m : m0 ∈ ms := (List.mem_filter.mp hm0).1
    have hop : m0.opError ≠ 0 := hall m0 hm0m hm0v
    rw [kern_procctl_pgid_eq,
      if_neg (by rintro ⟨m, hm, hv, ho⟩; exact hall m hm hv ho),
      firstVisibleError_head ms m0 t hf hop, if_pos hop]

/-- C4 witness: a group of four — one invisible, one visible member
failing with `EPERM`, two succeeding — aggregates to overall
success. -/
theorem kern_procctl_pgid_aggregate_witness :
    kern_procctl_pgid
      [⟨false, ESRCH, 0⟩, ⟨false, 0, EPERM⟩, ⟨false, 0, 0⟩, ⟨false, 0, 0⟩] = 0 :=
  (kern_procctl_pgid_aggregate
      [⟨false, ESRCH, 0⟩, ⟨false, 0, EPERM⟩, ⟨false, 0, 0⟩, ⟨false, 0, 0⟩]).2.1
    ⟨⟨false, 0, 0⟩, by decide, by decide, rfl⟩

/-! ## Claims C2 and C3: the `reap_kill` loop -/

/-- A flags word that passes the `~REAPER_KILL_CHILDREN` validation has
the `REAPER_KILL_SUBTREE` bit clear. -/
theorem land_subtree_zero (flags : Nat)
    (h : flags &&& (2 ^ 32 - 1 - REAPER_KILL_CHILDREN) = 0) :
    flags &&& REAPER_KILL_SUBTREE = 0 := by
  have h2 : (2 ^ 32 - 1 - REAPER_KILL_CHILDREN) &&& REAPER_KILL_SUBTREE =
      REAPER_KILL_SUBTREE := by decide
  calc flags &&& REAPER_KILL_SUBTREE
      = flags &&& ((2 ^ 32 - 1 - REAPER_KILL_CHILDREN) &&&
          REAPER_KILL_SUBTREE) := by rw [h2]
    _ = (flags &&& (2 ^ 32 - 1 - REAPER_KILL_CHILDREN)) &&&
          REAPER_KILL_SUBTREE := (Nat.land_assoc ..).symm
    _ = 0 := by rw [h]; rfl

/-- One step of the candidate loop when the subtree-filter flag is
clear (so the `continue` filter never fires). -/
theorem reap_kill_loop_cons (flags subtree : Nat)
    (hf : flags &&& REAPER_KILL_SUBTREE = 0) (p2 : KProc)
    (rest : List KProc) (error : Int) (killed : Nat) (fpid : Int)
    (acc : List Int) :
    reap_kill_loop flags subtree (p2 :: rest) error killed fpid acc =
      if p2.cansignal = 0 then
        reap_kill_loop flags subtree rest 0 (killed + 1) fpid
          (acc ++ [p2.p_pid])
      else if error = ESRCH then
        reap_kill_loop flags subtree rest p2.cansignal killed p2.p_pid acc
      else reap_kill_loop flags subtree rest error killed fpid acc := by
  rw [reap_kill_loop, if_neg (by simp [hf])]

/-- After input validation succeeds, `reap_kill` is the loop started
with errno `ESRCH`, zero kills and the `-1` pid sentinel over the
selected candidate set. -/
theorem reap_kill_valid (children reaplist : List KProc) (rk : RKill)
    (hs1 : 0 < rk.rk_sig) (hs2 : rk.rk_sig ≤ SIG_MAXSIG)
    (hflags : rk.rk_flags &&& (2 ^ 32 - 1 - REAPER_KILL_CHILDREN) = 0) :
    reap_kill false children reaplist rk =
      reap_kill_loop rk.rk_flags rk.rk_subtree
        (killCandidates rk.rk_flags children reaplist) ESRCH 0 (-1) [] := by
  rw [reap_kill, if_neg (by simp), if_neg (by push_neg; exact ⟨hs1, hs2⟩),
    if_neg (fun hc => hc hflags), killCandidates]

theorem reap_kill_loop_count (flags subtree : Nat)
    (hf : flags &&& REAPER_KILL_SUBTREE = 0) : ∀ (cs : List KProc)
    (error : Int) (killed : Nat) (fpid : Int) (acc : List Int),
    (reap_kill_loop flags subtree cs error killed fpid acc).signaled =
      acc ++ ((cs.filter fun q => q.cansignal == 0).map KProc.p_pid) ∧
    (reap_kill_loop flags subtree cs error killed fpid acc).rk_killed =
      killed + (cs.filter fun q => q.cansignal == 0).length
  | [], error, killed, fpid, acc => by simp [reap_kill_loop]
  | p2 :: rest, error, killed, fpid, acc => by
    rw [reap_kill_loop_cons flags subtree hf]
    by_cases hok : p2.cansignal = 0
    · rw [if_pos hok]
      have ih := reap_kill_loop_count flags subtree hf rest 0 (killed + 1)
        fpid (acc ++ [p2.p_pid])
      constructor
      · rw [ih.1, List.filter_cons_of_pos (by simpa using hok)]
        simp
      · rw [ih.2, List.filter_cons_of_pos (by simpa using hok)]
        simp
        omega
    · rw [if_neg hok]
      have hfilter : (p2 :: rest).filter (fun q => q.cansignal == 0) =
          rest.filter fun q => q.cansignal == 0 :=
        List.filter_cons_of_neg (by simpa using hok)
      by_cases he : error = ESRCH
      · rw [if_pos he, hfilter]
        exact reap_kill_loop_count flags subtree hf rest p2.cansignal
          killed p2.p_pid acc
      · rw [if_neg he, hfilter]
        exact reap_kill_loop_count flags subtree hf rest error killed
          fpid acc

theorem reap_kill_loop_error_zero (flags subtree : Nat)
    (hf : flags &&& REAPER_KILL_SUBTREE = 0) : ∀ (cs : List KProc)
    (killed : Nat) (fpid : Int) (acc : List Int),
    (reap_kill_loop flags subtree cs 0 killed fpid acc).error = 0
  | [], killed, fpid, acc => by simp [reap_kill_loop]
  | p2 :: rest, killed, fpid, acc => by
    rw [reap_kill_loop_cons flags subtree hf]
    by_cases hok : p2.cansignal = 0
    · rw [if_pos hok]
      exact reap_kill_loop_error_zero flags subtree hf rest (killed + 1)
        fpid (acc ++ [p2.p_pid])
    · rw [if_neg hok, if_neg (by simp [ESRCH])]
      exact reap_kill_loop_error_zero flags subtree hf rest killed fpid acc

theorem reap_kill_loop_error_of_ok (flags subtree : Nat)
    (hf : flags &&& REAPER_KILL_SUBTREE = 0) : ∀ (cs : List KProc)
    (error : Int) (killed : Nat) (fpid : Int) (acc : List Int),
    (∃ q ∈ cs, q.cansignal = 0) →
    (reap_kill_loop flags subtree cs error killed fpid acc).error = 0
  | [], error, killed, fpid, acc => by simp
  | p2 :: rest, error, killed, fpid, acc => by
    intro hex
    rw [reap_kill_loop_cons flags subtree hf]
    by_cases hok : p2.cansignal = 0
    · rw [if_pos hok]
      exact reap_kill_loop_error_zero flags subtree hf rest (killed + 1)
        fpid (acc ++ [p2.p_pid])
    · have hex2 : ∃ q ∈ rest, q.cansignal = 0 := by
        rcases hex with ⟨q, hq, hq0⟩
        rcases List.mem_cons.mp hq with rfl | hq
        · exact absurd hq0 hok
        · exact ⟨q, hq, hq0⟩
      rw [if_neg hok]
      by_cases he : error = ESRCH
      · rw [if_pos he]
        exact reap_kill_loop_error_of_ok flags subtree hf rest p2.cansignal
          killed p2.p_pid acc hex2
      · rw [if_neg he]
        exact reap_kill_loop_error_of_ok flags subtree hf rest error killed
          fpid acc hex2

theorem reap_kill_loop_error_keep (flags subtree : Nat)
    (hf : flags &&& REAPER_KILL_SUBTREE = 0) : ∀ (cs : List KProc)
    (error : Int) (killed : Nat) (fpid : Int) (acc : List Int),
    (∀ q ∈ cs, q.cansignal ≠ 0) → error ≠ ESRCH →
    (reap_kill_loop flags subtree cs error killed fpid acc).error = error
  | [], error, killed, fpid, acc => by simp [reap_kill_loop]
  | p2 :: rest, error, killed, fpid, acc => by
    intro hall he
    rw [reap_kill_loop_cons flags subtree hf,
      if_neg (hall p2 (List.mem_cons_self p2 rest)), if_neg he]
    exact reap_kill_loop_error_keep flags subtree hf rest error killed fpid
      acc (fun q hq => hall q (List.mem_cons_of_mem p2 hq)) he

theorem reap_kill_loop_error_allfail (flags subtree : Nat)
    (hf : flags &&& REAPER_KILL_SUBTREE = 0) : ∀ (cs : List KProc)
    (killed : Nat) (fpid : Int) (acc : List Int),
    (∀ q ∈ cs, q.cansignal ≠ 0) →
    (reap_kill_loop flags subtree cs ESRCH killed fpid acc).error =
      firstNonSentinelError cs
  | [], killed, fpid, acc => by simp [reap_kill_loop, firstNonSentinelError]
  | p2 :: rest, killed, fpid, acc => by
    intro hall
    have hrest : ∀ q ∈ rest, q.cansignal ≠ 0 :=
      fun q hq => hall q (List.mem_cons_of_mem p2 hq)
    rw [reap_kill_loop_cons flags subtree hf,
      if_neg (hall p2 (List.mem_cons_self p2 rest)), if_pos rfl]
    by_cases hs : p2.cansignal = ESRCH
    · rw [hs, firstNonSentinelError, if_neg (by simp [hs])]
      exact reap_kill_loop_error_allfail flags subtree hf rest killed
        p2.p_pid acc hrest
    · rw [firstNonSentinelError, if_pos hs]
      exact reap_kill_loop_error_keep flags subtree hf rest p2.cansignal
        killed p2.p_pid acc hrest hs

/-- C2 counterexample: `reap_kill` with `REAPER_KILL_CHILDREN` over
three direct children where the permission check fails for exactly the
first one reports `rk_killed = 2` and overall success as the claim
states, but `rk_fpid` is the failing child's pid 10, not the unset
sentinel -1: a later success clears the tentative errno yet never
resets `rk_fpid`, so the claim's "first_failed_pid unset regardless of
the position of the failing child" is false. -/
theorem reap_kill_children_fpid_not_reset :
    reap_kill false [⟨10, 0, EPERM⟩, ⟨11, 0, 0⟩, ⟨12, 0, 0⟩] []
      ⟨9, REAPER_KILL_CHILDREN, 0, 0, -1⟩ = ⟨0, 2, 10, [11, 12]⟩ ∧
    (10 : Int) ≠ -1 := by
  exact ⟨by decide, by decide⟩

/-- C2 (amended): with `REAPER_KILL_CHILDREN` over three direct
children of which exactly one (`a`) fails its permission check, the
result is always `rk_killed = 2` and overall success (errno 0), with
both permitted children signaled; but `rk_fpid` depends on the failing
child's position — it is `a`'s pid when `a` precedes every success and
the -1 sentinel otherwise, because a success clears only the tentative
errno, never the recorded pid. -/
theorem reap_kill_children_three (a b c : KProc) (reaplist : List KProc)
    (sig : Int) (tag k0 : Nat) (f0 : Int) (ha : a.cansignal ≠ 0)
    (hb : b.cansignal = 0) (hc : c.cansignal = 0) (hs1 : 0 < sig)
    (hs2 : sig ≤ SIG_MAXSIG) :
    reap_kill false [a, b, c] reaplist ⟨sig, REAPER_KILL_CHILDREN, tag, k0, f0⟩ =
      ⟨0, 2, a.p_pid, [b.p_pid, c.p_pid]⟩ ∧
    reap_kill false [b, a, c] reaplist ⟨sig, REAPER_KILL_CHILDREN, tag, k0, f0⟩ =
      ⟨0, 2, -1, [b.p_pid, c.p_pid]⟩ ∧
    reap_kill false [b, c, a] reaplist ⟨sig, REAPER_KILL_CHILDREN, tag, k0, f0⟩ =
      ⟨0, 2, -1, [b.p_pid, c.p_pid]⟩ := by
  have hf : REAPER_KILL_CHILDREN &&& REAPER_KILL_SUBTREE = 0 := by decide
  have hv : ∀ cs : List KProc,
      reap_kill false cs reaplist ⟨sig, REAPER_KILL_CHILDREN, tag, k0, f0⟩ =
        reap_kill_loop REAPER_KILL_CHILDREN tag cs ESRCH 0 (-1) [] := by
    intro cs
    rw [reap_kill_valid cs reaplist ⟨sig, REAPER_KILL_CHILDREN, tag, k0, f0⟩
      hs1 hs2 (by
        show REAPER_KILL_CHILDREN &&& (2 ^ 32 - 1 - REAPER_KILL_CHILDREN) = 0
        decide)]
    rw [show killCandidates REAPER_KILL_CHILDREN cs reaplist = cs from
      if_pos (by decide)]
  refine ⟨?_, ?_, ?_⟩ <;> rw [hv] <;>
    simp [reap_kill_loop, hf, ha, hb, hc, ESRCH]

/-- C2 witness: the amended theorem at concrete children, failing child
in second position. -/
theorem reap_kill_children_three_witness :
    reap_kill false [⟨11, 0, 0⟩, ⟨10, 0, EPERM⟩, ⟨12, 0, 0⟩] []
      ⟨9, REAPER_KILL_CHILDREN, 0, 0, -1⟩ = ⟨0, 2, -1, [11, 12]⟩ :=
  (reap_kill_children_three ⟨10, 0, EPERM⟩ ⟨11, 0, 0⟩ ⟨12, 0, 0⟩ [] 9 0 0
    (-1) (by decide) rfl rfl (by decide) (by decide)).2.1

/-- C3 counterexample: over a reap list whose first candidate fails
with `ESRCH` and whose second fails with `EPERM` (no successes), the
overall result is `EPERM` with `rk_fpid = 2` — not the first recorded
per-candidate failure (`ESRCH` at pid 1) the claim promises: the
`ESRCH` errno doubles as the "nothing recorded yet" sentinel, so the
first failure is overwritten by the second. -/
theorem reap_kill_first_failure_overwritten :
    reap_kill false [] [⟨1, 0, ESRCH⟩, ⟨2, 0, EPERM⟩] ⟨9, 0, 0, 0, -1⟩ =
      ⟨EPERM, 0, 2, []⟩ ∧
    EPERM ≠ (⟨1, 0, ESRCH⟩ : KProc).cansignal ∧
    (2 : Int) ≠ (⟨1, 0, ESRCH⟩ : KProc).p_pid := by
  exact ⟨by decide, by decide, by decide⟩

/-- C3 (amended): for every validly-flagged `reap_kill`, the loop
attempts every candidate — the pids signaled are exactly the permitted
candidates in iteration order and `rk_killed` counts them all, so a
permission failure never terminates the iteration; the overall result
is success whenever `rk_killed > 0`; when no candidate succeeded it is
the first per-candidate failure whose errno differs from the `ESRCH`
sentinel (an `ESRCH` failure can be superseded by a later failure), or
`ESRCH`; and an empty candidate set yields `ESRCH` (NotFound). -/
theorem reap_kill_aggregate (children reaplist : List KProc) (rk : RKill)
    (hs1 : 0 < rk.rk_sig) (hs2 : rk.rk_sig ≤ SIG_MAXSIG)
    (hflags : rk.rk_flags &&& (2 ^ 32 - 1 - REAPER_KILL_CHILDREN) = 0) :
    (reap_kill false children reaplist rk).signaled =
      ((killCandidates rk.rk_flags children reaplist).filter
        fun q => q.cansignal == 0).map KProc.p_pid ∧
    (reap_kill false children reaplist rk).rk_killed =
      ((killCandidates rk.rk_flags children reaplist).filter
        fun q => q.cansignal == 0).length ∧
    ((reap_kill false children reaplist rk).rk_killed ≠ 0 →
      (reap_kill false children reaplist rk).error = 0) ∧
    ((reap_kill false children reaplist rk).rk_killed = 0 →
      (reap_kill false children reaplist rk).error =
        firstNonSentinelError (killCandidates rk.rk_flags children reaplist)) ∧
    (killCandidates rk.rk_flags children reaplist = [] →
      (reap_kill false children reaplist rk).error = ESRCH) := by
  have hf : rk.rk_flags &&& REAPER_KILL_SUBTREE = 0 :=
    land_subtree_zero rk.rk_flags hflags
  have hv := reap_kill_valid children reaplist rk hs1 hs2 hflags
  have hcount := reap_kill_loop_count rk.rk_flags rk.rk_subtree hf
    (killCandidates rk.rk_flags children reaplist) ESRCH 0 (-1) []
  refine ⟨?_, ?_, ?_, ?_, ?_⟩
  · rw [hv, hcount.1]
    simp
  · rw [hv, hcount.2]
    simp
  · intro hk
    rw [hv] at hk ⊢
    rw [hcount.2] at hk
    have hne : ((killCandidates rk.rk_flags children reaplist).filter
        fun q => q.cansignal == 0) ≠ [] := by
      intro hnil
      rw [hnil] at hk
      simp at hk
    obtain ⟨q, hq⟩ := List.exists_mem_of_ne_nil _ hne
    have hq2 := List.mem_filter.mp hq
    exact reap_kill_loop_error_of_ok rk.rk_flags rk.rk_subtree hf _ ESRCH 0
      (-1) [] ⟨q, hq2.1, by simpa using hq2.2⟩
  · intro hk
    rw [hv] at hk ⊢
    rw [hcount.2] at hk
    have hall : ∀ q ∈ killCandidates rk.rk_flags children reaplist,
        q.cansignal ≠ 0 := by
      intro q hq hq0
      have hmem : q ∈ (killCandidates rk.rk_flags children reaplist).filter
          fun q => q.cansignal == 0 :=
        List.mem_filter.mpr ⟨hq, by simpa using hq0⟩
      have hlen : ((killCandidates rk.rk_flags children reaplist).filter
          fun q => q.cansignal == 0).length = 0 := by omega
      rw [List.length_eq_zero.mp hlen] at hmem
      simp at hmem
    exact reap_kill_loop_error_allfail rk.rk_flags rk.rk_subtree hf _ 0
      (-1) [] hall
  · intro hnil
    rw [hv, hnil]
    simp [reap_kill_loop]

/-- C3 witness: the theorem at a concrete two-candidate reap list, one
candidate permitted and one failing: the permitted one is signaled,
`rk_killed = 1` and the overall result is success. -/
theorem reap_kill_aggregate_witness :
    (reap_kill false [] [⟨1, 0, 0⟩, ⟨2, 0, EPERM⟩] ⟨9, 0, 0, 5, 7⟩).signaled
      = [1] ∧
    (reap_kill false [] [⟨1, 0, 0⟩, ⟨2, 0, EPERM⟩] ⟨9, 0, 0, 5, 7⟩).error
      = 0 := by
  have h := reap_kill_aggregate [] [⟨1, 0, 0⟩, ⟨2, 0, EPERM⟩]
    ⟨9, 0, 0, 5, 7⟩ (by decide) (by decide) (by decide)
  refine ⟨?_, h.2.2.1 ?_⟩
  · rw [h.1]; decide
  · rw [h.2.1]; decide

/-! ## Claim C6 -/

theorem protect_setchild_protects (flags : Nat)
    (hset : flags &&& PPROT_SET ≠ 0) (p : PProc) :
    (protect_setchild flags p).1.p_system = false →
    (protect_setchild flags p).1.cansched = true →
    (protect_setchild flags p).1.p_protected = true := by
  unfold protect_setchild
  by_cases hskip : p.p_system ∨ ¬p.cansched
  · rw [if_pos hskip]
    intro h1 h2
    simp only at h1 h2
    rcases hskip with h | h <;> simp_all
  · rw [if_neg hskip, if_pos hset]
    intro _ _
    rfl

theorem protect_setchild_idem (flags : Nat) (p : PProc) :
    protect_setchild flags (protect_setchild flags p).1 =
      protect_setchild flags p := by
  by_cases hskip : p.p_system = true ∨ p.cansched = false
  · simp [protect_setchild, hskip]
  · by_cases hset : flags &&& PPROT_SET = 0
    · simp [protect_setchild, hskip, hset]
    · by_cases hinh : flags &&& PPROT_INHERIT = 0 <;>
        simp [protect_setchild, hskip, hset, hinh]

mutual

theorem setchildren_protects (flags : Nat) (hset : flags &&& PPROT_SET ≠ 0) :
    ∀ t : PTree, ∀ q ∈ PTree.procs (protect_setchildren flags t).1,
      q.p_system = false → q.cansched = true → q.p_protected = true
  | .node p cs => by
    intro q hq
    simp only [protect_setchildren, PTree.procs] at hq
    rcases List.mem_cons.mp hq with rfl | hq
    · exact protect_setchild_protects flags hset p
    · exact setforest_protects flags hset cs q hq

theorem setforest_protects (flags : Nat) (hset : flags &&& PPROT_SET ≠ 0) :
    ∀ ts : List PTree, ∀ q ∈ ptreesProcs (protect_setforest flags ts).1,
      q.p_system = false → q.cansched = true → q.p_protected = true
  | [] => by
    intro q hq
    simp [protect_setforest, ptreesProcs] at hq
  | t :: ts => by
    intro q hq
    simp only [protect_setforest, ptreesProcs] at hq
    rcases List.mem_append.mp hq with hq | hq
    · exact setchildren_protects flags hset t q hq
    · exact setforest_protects flags hset ts q hq

end

mutual

theorem setchildren_idem (flags : Nat) : ∀ t : PTree,
    protect_setchildren flags (protect_setchildren flags t).1 =
      protect_setchildren flags t
  | .node p cs => by
    simp only [protect_setchildren]
    rw [protect_setchild_idem, setforest_idem flags cs]

theorem setforest_idem (flags : Nat) : ∀ ts : List PTree,
    protect_setforest flags (protect_setforest flags ts).1 =
      protect_setforest flags ts
  | [] => by simp [protect_setforest]
  | t :: ts => by
    simp only [protect_setforest]
    rw [setchildren_idem flags t, setforest_idem flags ts]

end

/-- The result tree of a `PPROT_SET | PPROT_DESCEND` call. -/
theorem protect_set_descend_eq (t : PTree) :
    protect_set 0 (PPROT_SET ||| PPROT_DESCEND) t =
      if (protect_setchildren (PPROT_SET ||| PPROT_DESCEND) t).2 = 0 then
        (EPERM, (protect_setchildren (PPROT_SET ||| PPROT_DESCEND) t).1)
      else (0, (protect_setchildren (PPROT_SET ||| PPROT_DESCEND) t).1) := by
  rw [protect_set, if_neg (by decide), if_neg (by decide), if_neg (by decide),
    if_pos (show (PPROT_SET ||| PPROT_DESCEND) &&& PPROT_DESCEND ≠ 0 by decide)]

theorem protect_set_descend_snd (t : PTree) :
    (protect_set 0 (PPROT_SET ||| PPROT_DESCEND) t).2 =
      (protect_setchildren (PPROT_SET ||| PPROT_DESCEND) t).1 := by
  rw [protect_set_descend_eq]
  split <;> rfl

/-- C6: after `protect_set` with mode `PPROT_SET` and option
`PPROT_DESCEND` by a caller holding the protection privilege
(`priv_check` = 0), every record in the subtree — the target included —
that is not `P_SYSTEM` and is schedule-controllable by the caller has
`P_PROTECTED` set; and applying the identical call again returns the
identical errno and leaves every flag unchanged (idempotence). -/
theorem protect_set_descend_protects (t : PTree) :
    (∀ q ∈ PTree.procs (protect_set 0 (PPROT_SET ||| PPROT_DESCEND) t).2,
      q.p_system = false → q.cansched = true → q.p_protected = true) ∧
    protect_set 0 (PPROT_SET ||| PPROT_DESCEND)
        (protect_set 0 (PPROT_SET ||| PPROT_DESCEND) t).2 =
      protect_set 0 (PPROT_SET ||| PPROT_DESCEND) t := by
  constructor
  · intro q hq
    rw [protect_set_descend_snd] at hq
    exact setchildren_protects (PPROT_SET ||| PPROT_DESCEND) (by decide)
      t q hq
  · rw [protect_set_descend_snd, protect_set_descend_eq
      (protect_setchildren (PPROT_SET ||| PPROT_DESCEND) t).1,
      setchildren_idem, ← protect_set_descend_eq t]

/-- C6 witness: the theorem at a two-node subtree of ordinary
schedulable records; the root's record ends up protected and the call
is idempotent. -/
theorem protect_set_descend_protects_witness :
    (⟨false, true, true, false⟩ : PProc).p_protected = true ∧
    protect_set 0 (PPROT_SET ||| PPROT_DESCEND)
        (protect_set 0 (PPROT_SET ||| PPROT_DESCEND)
          (.node ⟨false, true, false, false⟩
            [.node ⟨false, true, false, false⟩ []])).2 =
      protect_set 0 (PPROT_SET ||| PPROT_DESCEND)
        (.node ⟨false, true, false, false⟩
          [.node ⟨false, true, false, false⟩ []]) :=
  ⟨(protect_set_descend_protects
      (.node ⟨false, true, false, false⟩
        [.node ⟨false, true, false, false⟩ []])).1
      ⟨false, true, true, false⟩ (by decide) rfl rfl,
   (protect_set_descend_protects
      (.node ⟨false, true, false, false⟩
        [.node ⟨false, true, false, false⟩ []])).2⟩

end Procctl
